import Mathlib

/-!
Shallow embedding of the auditARG/tattler pipeline core: the data model
(`Entry` / `Informer` / `PersistentVolume` / `Change`), the `safety.Secrets`
redaction stage, the `batching.Batcher` window coalescer, the `routing.Batches`
fan-out router, and the `tattler.Runner` orchestrator.  Each Lean definition is
translated from the corresponding Go function in the repository; theorems below
settle the spec claims against these definitions.
-/

set_option maxHeartbeats 1000000

namespace Tattler

/-- `data.ChangeType`: the type of change (Go `uint8` constants). -/
inductive ChangeType where
  | CTUnknown
  | CTAdd
  | CTUpdate
  | CTDelete
deriving DecidableEq, Repr

/-- `data.ObjectType`: the type of the object held in a type. -/
inductive ObjectType where
  | OTUnknown
  | OTNode
  | OTPod
  | OTNamespace
  | OTPersistentVolume
deriving DecidableEq, Repr

/-- `data.EntryType`: which SourceData flavor an Entry wraps. -/
inductive EntryType where
  | ETUnknown
  | ETInformer
  | ETPersistentVolume
deriving DecidableEq, Repr

/-- `corev1.EnvVar`: an environment variable of a container (the two fields the
redactor touches). -/
structure EnvVar where
  Name : String
  Value : String
deriving DecidableEq, Repr

/-- `corev1.Container`, restricted to the `Env` field walked by the redactor. -/
structure Container where
  Env : List EnvVar
deriving DecidableEq, Repr

/-- `corev1.PodSpec`, restricted to the `Containers` field. -/
structure PodSpec where
  Containers : List Container
deriving DecidableEq, Repr

/-- `corev1.Pod`: UID (from ObjectMeta) plus the spec the redactor walks. -/
structure Pod where
  uid : String
  Spec : PodSpec
deriving DecidableEq, Repr

/-- `corev1.Node`, restricted to its UID. -/
structure Node where
  uid : String
deriving DecidableEq, Repr

/-- `corev1.Namespace`, restricted to its UID. -/
structure Namespace where
  uid : String
deriving DecidableEq, Repr

/-- `corev1.PersistentVolume` (the object, not the SourceData wrapper),
restricted to its UID. -/
structure PersistentVolumeObj where
  uid : String
deriving DecidableEq, Repr

/-- The closed universe of pointer payload types `T` instantiating the generic
`Change[T K8Object]` in the source (`*corev1.Node`, `*corev1.Pod`,
`*corev1.Namespace`, `*corev1.PersistentVolume`). -/
inductive ObjKind where
  | node
  | pod
  | ns
  | pv
deriving DecidableEq, Repr

/-- The Go object type behind each pointer kind.  A Go pointer value is
modelled as `Option (ObjTy k)`: `none` is the nil pointer, which is exactly
the value `reflect.ValueOf(ptr).IsZero()` recognizes as zero. -/
def ObjTy : ObjKind → Type
  | .node => Node
  | .pod => Pod
  | .ns => Namespace
  | .pv => PersistentVolumeObj

instance ObjTy.instDecidableEq : (k : ObjKind) → DecidableEq (ObjTy k)
  | .node => inferInstanceAs (DecidableEq Node)
  | .pod => inferInstanceAs (DecidableEq Pod)
  | .ns => inferInstanceAs (DecidableEq Namespace)
  | .pv => inferInstanceAs (DecidableEq PersistentVolumeObj)

/-- `GetUID()` of a (non-nil) object of kind `k`. -/
def objUID : (k : ObjKind) → ObjTy k → String
  | .node, o => o.uid
  | .pod, o => o.uid
  | .ns, o => o.uid
  | .pv, o => o.uid

/-- Go `error` values produced by the data package: the `ErrInvalidType`
sentinel, `fmt.Errorf` messages, and a nil-pointer dereference (a Go panic,
reached only off the validated paths). -/
inductive GoErr where
  | ErrInvalidType
  | errorf (msg : String)
  | nilDeref
deriving DecidableEq, Repr

deriving instance DecidableEq for Except

/-- `data.Change[T]`: a change made to a data set.  `Old`/`New` are pointers
(`none` = nil). -/
structure Change (k : ObjKind) where
  Old : Option (ObjTy k)
  New : Option (ObjTy k)
  ChangeType : ChangeType
  ObjectType : ObjectType
deriving DecidableEq

/-- `data.NewChange`: validates and constructs a `Change`, deriving the
`ObjectType` from the dynamic type of the new object. -/
def NewChange (k : ObjKind) (newObj oldObj : Option (ObjTy k)) (ct : ChangeType) :
    Except GoErr (Change k) :=
  if ct = .CTUnknown then .error .ErrInvalidType
  else
    let newIsZero := newObj.isNone
    let oldIsZero := oldObj.isNone
    if newIsZero && oldIsZero then .error (.errorf "new and old are both empty")
    else if ct = .CTAdd && (newIsZero || !oldIsZero) then
      .error (.errorf "Change for add incorrect")
    else if ct = .CTUpdate && (newIsZero || oldIsZero) then
      .error (.errorf "Change for update has new or old empty")
    else if ct = .CTDelete && (oldIsZero || !newIsZero) then
      .error (.errorf "Change for delete incorrect")
    else
      match k with
      | .node => .ok ⟨oldObj, newObj, ct, .OTNode⟩
      | .pod => .ok ⟨oldObj, newObj, ct, .OTPod⟩
      | .ns => .ok ⟨oldObj, newObj, ct, .OTNamespace⟩
      | .pv => .error (.errorf "unknown object type")

/-- `data.Change.Validate`: validates the change object is correct.  Returns
`none` for a nil Go error. -/
def Change.Validate {k : ObjKind} (c : Change k) : Option GoErr :=
  if c.ChangeType = .CTUnknown then some .ErrInvalidType
  else if c.ObjectType = .OTUnknown then some .ErrInvalidType
  else if c.ChangeType = .CTAdd && c.New.isNone then some .ErrInvalidType
  else if c.ChangeType = .CTUpdate && (c.New.isNone || c.Old.isNone) then some .ErrInvalidType
  else if c.ChangeType = .CTDelete && c.Old.isNone then some .ErrInvalidType
  else none

/-- `data.Change.UID`: the UID of the underlying object being changed.
Calling `GetUID()` through a nil pointer is a Go panic, modelled as
`GoErr.nilDeref`. -/
def Change.UID {k : ObjKind} (c : Change k) : Except GoErr String :=
  match c.ChangeType with
  | .CTAdd =>
    match c.New with
    | some o => .ok (objUID k o)
    | none => .error .nilDeref
  | .CTUpdate =>
    match c.New with
    | some o => .ok (objUID k o)
    | none => .error .nilDeref
  | .CTDelete =>
    match c.Old with
    | some o => .ok (objUID k o)
    | none => .error .nilDeref
  | .CTUnknown => .error (.errorf "unknown ChangeType")

/-- The values stored in the `data any` field of `Informer` and
`PersistentVolume`: a `Change[T]` for one of the four payload kinds. -/
inductive ChangeAny where
  | node (c : Change .node)
  | pod (c : Change .pod)
  | ns (c : Change .ns)
  | pv (c : Change .pv)
deriving DecidableEq

/-- Wraps a `Change k` as the `any`-typed data field. -/
def ChangeAny.mk : (k : ObjKind) → Change k → ChangeAny
  | .node, c => .node c
  | .pod, c => .pod c
  | .ns, c => .ns c
  | .pv, c => .pv c

/-- `data.Informer`: data from an APIServer informer; implements SourceData. -/
structure Informer where
  data : ChangeAny
  uid : String
  type : ObjectType
deriving DecidableEq

/-- `data.NewInformer`: validates the change's ObjectType tag, its §3
invariants and its UID, then wraps it. -/
def NewInformer (k : ObjKind) (change : Change k) : Except GoErr Informer :=
  match change.ObjectType with
  | .OTNode | .OTPod | .OTNamespace =>
    match change.Validate with
    | some err => .error err
    | none =>
      match change.UID with
      | .error err => .error err
      | .ok uid => .ok ⟨ChangeAny.mk k change, uid, change.ObjectType⟩
  | _ => .error .ErrInvalidType

/-- A `runtime.Object` interface value as returned by `Object()`: a typed
pointer to one of the four kinds (the pointer itself may be nil). -/
inductive RObj where
  | node (p : Option Node)
  | pod (p : Option Pod)
  | ns (p : Option Namespace)
  | pv (p : Option PersistentVolumeObj)
deriving DecidableEq

/-- `data.Informer.Object`: the latest-change object; `none` models the
untyped nil returned for an unrecognized payload. -/
def Informer.Object (i : Informer) : Option RObj :=
  match i.data with
  | .node c => some (.node (if c.ChangeType = .CTDelete then c.Old else c.New))
  | .pod c => some (.pod (if c.ChangeType = .CTDelete then c.Old else c.New))
  | .ns c => some (.ns (if c.ChangeType = .CTDelete then c.Old else c.New))
  | .pv _ => none

/-- `data.PersistentVolume` (the SourceData wrapper for PV changes). -/
structure PersistentVolumeSD where
  data : ChangeAny
  uid : String
  type : ObjectType
deriving DecidableEq

/-- `data.NewPersistentVolume`: accepts only changes tagged
`OTPersistentVolume`, then validates and wraps them. -/
def NewPersistentVolume (k : ObjKind) (change : Change k) : Except GoErr PersistentVolumeSD :=
  match change.ObjectType with
  | .OTPersistentVolume =>
    match change.Validate with
    | some err => .error err
    | none =>
      match change.UID with
      | .error err => .error err
      | .ok uid => .ok ⟨ChangeAny.mk k change, uid, change.ObjectType⟩
  | _ => .error .ErrInvalidType

/-- The `data.SourceData` interface: the two concrete implementations. -/
inductive SourceDataV where
  | informer (i : Informer)
  | pv (p : PersistentVolumeSD)
deriving DecidableEq

/-- `SourceData.GetUID` on either implementation. -/
def SourceDataV.GetUID : SourceDataV → String
  | .informer i => i.uid
  | .pv p => p.uid

/-- `data.Entry`: the envelope carried by the pipeline channels.  `data` is an
interface field, so it may be nil (`none`). -/
structure Entry where
  data : Option SourceDataV
  type : EntryType
deriving DecidableEq

/-- `data.NewEntry`: tags the entry according to the concrete SourceData. -/
def NewEntry (d : Option SourceDataV) : Except GoErr Entry :=
  match d with
  | none => .error .ErrInvalidType
  | some (.informer _) => .ok ⟨d, .ETInformer⟩
  | some (.pv _) => .ok ⟨d, .ETPersistentVolume⟩

/-- `data.Entry.UID`: delegates to the inner data; empty UID for nil data. -/
def Entry.UID (e : Entry) : String :=
  match e.data with
  | none => ""
  | some d => d.GetUID

/-- `data.Entry.Informer`: the entry data as an Informer, or `ErrInvalidType`
when the tag or payload does not match. -/
def Entry.Informer (e : Entry) : Except GoErr Informer :=
  if e.type = .ETInformer then
    match e.data with
    | some (.informer i) => .ok i
    | _ => .error .ErrInvalidType
  else .error .ErrInvalidType

/-- Whether `pre` is a prefix of `l` (executable helper for the regex model). -/
def listIsPrefixB : List Char → List Char → Bool
  | [], _ => true
  | _ :: _, [] => false
  | a :: as, b :: bs => a == b && listIsPrefixB as bs

/-- Whether `needle` occurs as a contiguous sublist of `hay`. -/
def listIsInfixB (needle : List Char) : List Char → Bool
  | [] => needle.isEmpty
  | b :: bs => listIsPrefixB needle (b :: bs) || listIsInfixB needle bs

namespace safety

/-- `safety.secretRE`: the credential-name regex
`(?i)(token|pass|pwd|jwt|hash|secret|bearer|cred|secure|signing|cert|code|key)`
of the tattler safety package, modelled as a case-insensitive substring
match over its alternation. -/
def secretWords : List String :=
  ["token", "pass", "pwd", "jwt", "hash", "secret", "bearer", "cred",
   "secure", "signing", "cert", "code", "key"]

/-- `secretRE.MatchString name`: some alternative occurs (case-insensitively)
as a substring of `name`. -/
def secretREMatch (name : String) : Bool :=
  secretWords.any (fun w => listIsInfixB w.toList (name.toList.map Char.toLower))

/-- The loop body of `Secrets.scrubContainer` on one env var: overwrite the
value with the literal `REDACTED` when the name matches. -/
def scrubEnvVar (ev : EnvVar) : EnvVar :=
  if secretREMatch ev.Name then { ev with Value := "REDACTED" } else ev

/-- `safety.Secrets.scrubContainer`: scrubs sensitive env vars of a container. -/
def scrubContainer (c : Container) : Container :=
  { c with Env := c.Env.map scrubEnvVar }

/-- `safety.Secrets.scrubPod`: scrubs every container of the pod spec. -/
def scrubPod (p : Pod) : Pod :=
  { p with Spec := { p.Spec with Containers := p.Spec.Containers.map scrubContainer } }

/-- Writes the pod the redactor mutated back into the slot `Object()` read it
from (`Old` for a delete, `New` otherwise): the functional rendering of the
in-place pointer mutation. -/
def setPodSlot (c : Change .pod) (p : Pod) : Change .pod :=
  if c.ChangeType = .CTDelete then { c with Old := some p } else { c with New := some p }

/-- `safety.Secrets.informerScrubber`: redacts an Informer-wrapped Pod entry.
Returns the entry as it stands after the in-place mutation.  Scrubbing a nil
pod pointer would be a Go panic (`GoErr.nilDeref`); a payload that does not
cast to `*corev1.Pod` is the `errorf` case of the source. -/
def informerScrubber (e : Entry) : Except GoErr Entry :=
  match e.Informer with
  | .error err => .error err
  | .ok i =>
    match i.type with
    | .OTPod =>
      match i.data with
      | .pod c =>
        match (if c.ChangeType = .CTDelete then c.Old else c.New) with
        | some p =>
          .ok { e with data := some (.informer { i with data := .pod (setPodSlot c (scrubPod p)) }) }
        | none => .error .nilDeref
      | _ => .error (.errorf "safety.Secrets.informerRouter: error casting object to pod")
    | _ => .ok e

/-- `safety.Secrets.entryRouter`: routes an entry through the scrubber.
`none` models the logged-and-dropped path (the error return before the send);
`some e` is the entry forwarded on the output channel. -/
def entryRouter (e : Entry) : Option Entry :=
  match e.type with
  | .ETInformer =>
    match informerScrubber e with
    | .error _ => none
    | .ok e' => some e'
  | _ => some e

end safety

/-- Lookup in an association list with unique keys (the model of a Go map). -/
def alistGet {κ ν : Type} [DecidableEq κ] : List (κ × ν) → κ → Option ν
  | [], _ => none
  | (k, v) :: rest, key => if key = k then some v else alistGet rest key

/-- Map-style insertion: replaces the value at an existing key, otherwise
appends the binding. -/
def alistSet {κ ν : Type} [DecidableEq κ] : List (κ × ν) → κ → ν → List (κ × ν)
  | [], key, v => [(key, v)]
  | (k, v') :: rest, key, v =>
    if key = k then (k, v) :: rest else (k, v') :: alistSet rest key v

namespace batching

/-- `batching.Batch`: a map of UIDs to entries. -/
abbrev Batch := List (String × Entry)

/-- `batching.Batches`: a map of entry types to batches. -/
abbrev Batches := List (EntryType × Batch)

/-- `batching.Batcher.handleData`: puts the entry into the current batch,
overwriting any earlier entry with the same UID.  The batch for an absent
type comes from the pool, whose values are always empty maps (`Recycle`
clears them before `Put`, and the pool's `New` makes empty maps).  An entry
with an empty UID is rejected before any write. -/
def handleData (current : Batches) (entry : Entry) : Except GoErr Batches :=
  let batch := match alistGet current entry.type with
    | some b => b
    | none => ([] : Batch)
  if entry.UID = "" then .error (.errorf "no UID for entry")
  else .ok (alistSet current entry.type (alistSet batch entry.UID entry))

/-- One window of the `Batcher.run` loop restricted to data events: fold
`handleData` over the delivered entries; an entry that errors is logged and
leaves `current` unchanged. -/
def handleWindow (es : List Entry) (init : Batches) : Batches :=
  es.foldl (fun cur e =>
    match handleData cur e with
    | .ok cur' => cur'
    | .error _ => cur) init

/-- `batching.Batcher.emit`: hand the current batches to the output channel
and take a fresh (empty) `Batches` from the pool as the new current.  Result:
(new current, values sent on `out`). -/
def emit (current : Batches) : Batches × List Batches :=
  (([] : Batches), [current])

/-- The events the `Batcher.handleInput` select waits on. -/
inductive BatcherEvent where
  | entry (e : Entry)
  | closed
  | tick
deriving DecidableEq

/-- `batching.Batcher.handleInput`: one step of the two-event loop.  Result:
(new current, values sent on `out`, exit flag, returned error). -/
def handleInput (current : Batches) (ev : BatcherEvent) :
    Batches × List Batches × Bool × Option GoErr :=
  match ev with
  | .entry e =>
    match handleData current e with
    | .ok current' => (current', [], false, none)
    | .error err => (current, [], false, some err)
  | .closed => (current, [], true, none)
  | .tick =>
    if current.length = 0 then (current, [], false, none)
    else
      let (current', sent) := emit current
      (current', sent, false, none)

end batching

/-- A Go channel modelled by its capacity and buffered contents; a
non-blocking send succeeds exactly when the buffer has room. -/
structure Chan (α : Type) where
  cap : Nat
  buf : List α
deriving DecidableEq

/-- Non-blocking send (the `select`/`default` pattern): `some` is the updated
channel, `none` the refused send. -/
def Chan.trySend {α : Type} (c : Chan α) (v : α) : Option (Chan α) :=
  if c.buf.length < c.cap then some { c with buf := c.buf ++ [v] } else none

namespace routing

/-- `routing.route`: a named output channel. -/
structure route where
  out : Chan batching.Batches
  name : String
deriving DecidableEq

/-- `routing.Batches`: the router's registry of sinks plus its started flag. -/
structure Batches where
  routes : List route
  started : Bool
deriving DecidableEq

/-- `routing.Batches.Register`: adds a named sink; the channel argument is an
interface value that may be nil (`none`). -/
def Batches.Register (b : Batches) (name : String) (ch : Option (Chan batching.Batches)) :
    Except String Batches :=
  if b.started then
    .error "routing.Batches.Register: cannot Register a route after Start() is called"
  else if name = "" then
    .error "routing.Batches.Register; cannot Register a route with an empty name"
  else
    match ch with
    | none => .error "routing.Batches.Register: cannot Register a route with a nil channel"
    | some c => .ok { b with routes := b.routes ++ [⟨c, name⟩] }

/-- `routing.Batches.Start`: fails only when no routes are registered;
otherwise sets the started flag and spawns the broadcast loop. -/
def Batches.Start (b : Batches) : Except String Batches :=
  if b.routes.length = 0 then
    .error "routing.Batches: cannot start without registered routes"
  else .ok { b with started := true }

/-- `routing.Batches.push`: non-blocking send of a batches value to one route;
on a full channel, the drop error naming the route. -/
def Batches.push (r : route) (batches : batching.Batches) : Except String route :=
  match r.out.trySend batches with
  | some out' => .ok { r with out := out' }
  | none =>
    .error ("routing.Batches.handleInformer: dropping data to slow receiver(" ++ r.name ++ ")")

/-- The body of `routing.Batches.handleInput` for one received `Batches`
value: push to every route in order, logging each drop error.  Result:
(routes with updated channel states, logged messages in order). -/
def handleOne (rs : List route) (batches : batching.Batches) : List route × List String :=
  match rs with
  | [] => ([], [])
  | r :: rest =>
    let (rest', logs) := handleOne rest batches
    match Batches.push r batches with
    | .ok r' => (r' :: rest', logs)
    | .error msg => (r :: rest', msg :: logs)

end routing

namespace tattler

/-- The reader methods `Runner.AddReader`/`Runner.Start` invoke. -/
inductive ReaderCall where
  | setOut
  | run
deriving DecidableEq, Repr

/-- `tattler.Runner`: registration state relevant to reader sequencing
(readers are abstract ids; their `SetOut`/`Run` are assumed to succeed, as the
claims concern call sequencing, not reader failures). -/
structure Runner where
  readers : List Nat
  started : Bool
deriving DecidableEq

/-- `tattler.Runner.AddReader`: always calls the reader's `SetOut`; calls
`Run` too when `started` is set; then accumulates the reader.  Result:
(new runner, calls made on the reader). -/
def Runner.AddReader (r : Runner) (reader : Nat) : Runner × List ReaderCall :=
  let calls := [ReaderCall.setOut] ++ (if r.started then [ReaderCall.run] else [])
  ({ r with readers := r.readers ++ [reader] }, calls)

/-- `tattler.Runner.Start`: calls `Run` on every accumulated reader and starts
the router.  The source never assigns `r.started = true` here.  Result:
(runner state after the call, `Run` calls made). -/
def Runner.Start (r : Runner) : Runner × List (Nat × ReaderCall) :=
  (r, r.readers.map (fun id => (id, ReaderCall.run)))

end tattler

/-! Helper predicates used by the claim statements. -/

/-- The §3 invariant established for every `Informer` built by `NewInformer`:
the tag agrees with the payload kind (one of Node/Pod/Namespace) and the
wrapped change validates. -/
def InformerWF (i : Informer) : Bool :=
  match i.data with
  | .node c => decide (i.type = .OTNode) && c.Validate.isNone
  | .pod c => decide (i.type = .OTPod) && c.Validate.isNone
  | .ns c => decide (i.type = .OTNamespace) && c.Validate.isNone
  | .pv _ => false

/-- The §3 invariant established for every `Entry` built by `NewEntry`: the
`type` tag agrees with the concrete SourceData, and an informer payload is
itself well-formed. -/
def EntryWF (e : Entry) : Bool :=
  match e.data, e.type with
  | some (.informer i), .ETInformer => InformerWF i
  | some (.pv _), .ETPersistentVolume => true
  | _, _ => false

/-- The slot `Object()` reads from a pod change: `Old` for a delete, `New`
otherwise. -/
def changeSlot (c : Change .pod) : Option Pod :=
  if c.ChangeType = .CTDelete then c.Old else c.New

/-- The entry `informerScrubber` forwards for an Informer-wrapped pod change:
the same envelope with the scrubbed pod written back into the slot it was
read from. -/
def scrubbedPodEntry (e : Entry) (i : Informer) (c : Change .pod) (p : Pod) : Entry :=
  { e with data := some (.informer { i with data := .pod (safety.setPodSlot c (safety.scrubPod p)) }) }

/-- The drop message `routing.Batches.push` produces for a full sink. -/
def dropMsg (name : String) : String :=
  "routing.Batches.handleInformer: dropping data to slow receiver(" ++ name ++ ")"

/-- Lookup of the entry stored under `(T, u)` in a `Batches` value. -/
def lookupB (bs : batching.Batches) (T : EntryType) (u : String) : Option Entry :=
  (alistGet bs T).bind (fun b => alistGet b u)

/-- Number of bindings stored under key `u` in the batch for `T` (an absent
batch counts as empty). -/
def countB (bs : batching.Batches) (T : EntryType) (u : String) : Nat :=
  (((alistGet bs T).getD []).filter (fun kv => decide (kv.1 = u))).length

/-- Whether a handled entry has the given type and UID. -/
def entryMatches (T : EntryType) (u : String) (e : Entry) : Bool :=
  decide (e.type = T) && decide (e.UID = u)

/-! Claim theorems. -/

/-- Claim C4, counterexample: a router with one registered sink starts
successfully, and calling `Start` again on the started router succeeds as
well — the code never checks the `started` flag in `Start`, so the claimed
"second call returns an error" is false. -/
theorem c4_counterexample :
    routing.Batches.Start ⟨[⟨⟨1, []⟩, "sink"⟩], false⟩ = .ok ⟨[⟨⟨1, []⟩, "sink"⟩], true⟩ ∧
    routing.Batches.Start ⟨[⟨⟨1, []⟩, "sink"⟩], true⟩ = .ok ⟨[⟨⟨1, []⟩, "sink"⟩], true⟩ := by
  constructor <;> rfl

/-- Claim C4, amended: router `Start` returns an error exactly when no sinks
are registered; a second call to `Start` after a successful first call does
not return an error (the source checks only the route list, never the
`started` flag). -/
theorem c4_amended (b : routing.Batches) :
    ((∃ b', routing.Batches.Start b = .ok b') ↔ b.routes ≠ []) ∧
    (∀ b', routing.Batches.Start b = .ok b' → ∃ b'', routing.Batches.Start b' = .ok b'') := by
  constructor
  · constructor
    · rintro ⟨b', hb⟩
      intro hroutes
      simp [routing.Batches.Start, hroutes] at hb
    · intro hroutes
      refine ⟨{ b with started := true }, ?_⟩
      simp [routing.Batches.Start, List.length_eq_zero, hroutes]
  · rintro b' hb
    by_cases h : b.routes.length = 0
    · simp [routing.Batches.Start, h] at hb
    · simp only [routing.Batches.Start, if_neg h, Except.ok.injEq] at hb
      subst hb
      refine ⟨{ b with started := true }, ?_⟩
      simp [routing.Batches.Start, h]

/-- Witness for `c4_amended` at a concrete router. -/
theorem c4_amended_witness :
    ∃ b'', routing.Batches.Start ⟨[⟨⟨1, []⟩, "sink"⟩], true⟩ = .ok b'' :=
  (c4_amended ⟨[⟨⟨1, []⟩, "sink"⟩], false⟩).2 ⟨[⟨⟨1, []⟩, "sink"⟩], true⟩ rfl

/-- Claim C5, counterexample: registering the same name and channel a second
time succeeds (the route is simply appended) — the source has no
duplicate-registration check, so the claimed error case "the channel is
already registered under that name" is false. -/
theorem c5_counterexample :
    routing.Batches.Register ⟨[⟨⟨1, []⟩, "a"⟩], false⟩ "a" (some ⟨1, []⟩) =
      .ok ⟨[⟨⟨1, []⟩, "a"⟩, ⟨⟨1, []⟩, "a"⟩], false⟩ := by
  rfl

/-- Claim C5, amended: `Register(name, ch)` returns an error exactly when
`Start` has been called, the name is empty, or the channel is nil; otherwise
it appends the named sink.  Duplicate registrations are permitted. -/
theorem c5_amended (b : routing.Batches) (name : String) (ch : Option (Chan batching.Batches)) :
    ((∃ b', routing.Batches.Register b name ch = .ok b') ↔
      (b.started = false ∧ name ≠ "" ∧ ch ≠ none)) ∧
    (∀ c, b.started = false → name ≠ "" →
      routing.Batches.Register b name (some c) = .ok { b with routes := b.routes ++ [⟨c, name⟩] }) := by
  constructor
  · constructor
    · rintro ⟨b', hb⟩
      by_cases hs : b.started
      · simp [routing.Batches.Register, hs] at hb
      · by_cases hn : name = ""
        · simp [routing.Batches.Register, hs, hn] at hb
        · cases ch with
          | none => simp [routing.Batches.Register, hs, hn] at hb
          | some c => exact ⟨by simpa using hs, hn, by simp⟩
    · rintro ⟨hs, hn, hc⟩
      cases ch with
      | none => exact absurd rfl hc
      | some c =>
        refine ⟨{ b with routes := b.routes ++ [⟨c, name⟩] }, ?_⟩
        simp [routing.Batches.Register, hs, hn]
  · intro c hs hn
    simp [routing.Batches.Register, hs, hn]

/-- Witness for `c5_amended` at a concrete registration. -/
theorem c5_amended_witness :
    routing.Batches.Register ⟨[], false⟩ "a" (some ⟨1, []⟩) = .ok ⟨[⟨⟨1, []⟩, "a"⟩], false⟩ :=
  (c5_amended ⟨[], false⟩ "a" (some ⟨1, []⟩)).2 ⟨1, []⟩ rfl (by decide)

/-- Claim C6: `Runner.Start` never sets the `started` flag, so a reader added
after a successful `Start` gets only `SetOut` and its `Run` is never invoked,
contradicting `AddReader`'s documented staggered-reader support. -/
theorem c6_staggered_reader_bug :
    (tattler.Runner.Start ⟨[], false⟩).1.started = false ∧
    ((tattler.Runner.Start ⟨[], false⟩).1.AddReader 7).2 = [tattler.ReaderCall.setOut] := by
  constructor <;> rfl

/-- Claim C8: at a tick, an empty current `Batches` emits nothing and the
state is unchanged; a non-empty one is sent on the output channel exactly
once and replaced by a fresh empty `Batches` from the pool. -/
theorem c8_tick_emission (cur : batching.Batches) :
    (cur = [] → batching.handleInput cur .tick = (cur, [], false, none)) ∧
    (cur ≠ [] → batching.handleInput cur .tick = ([], [cur], false, none)) := by
  constructor
  · rintro rfl
    rfl
  · intro h
    have hlen : ¬ cur.length = 0 := by
      simpa [List.length_eq_zero] using h
    simp [batching.handleInput, batching.emit, hlen]

/-- Witness for `c8_tick_emission` on concrete empty and non-empty batches. -/
theorem c8_tick_emission_witness :
    batching.handleInput [] .tick = ([], [], false, none) ∧
    batching.handleInput [(EntryType.ETInformer, ([] : batching.Batch))] .tick =
      ([], [[(EntryType.ETInformer, ([] : batching.Batch))]], false, none) :=
  ⟨(c8_tick_emission []).1 rfl,
   (c8_tick_emission [(EntryType.ETInformer, ([] : batching.Batch))]).2 (by decide)⟩

/-- Claim C7, counterexample: a PersistentVolume add satisfying the listed
§3 invariants is rejected by `NewChange` (with a descriptive error), and an
invariant violation (both objects zero for an Add) returns the `fmt.Errorf`
message "new and old are both empty", which is not the `ErrInvalidType`
sentinel — so `NewChange` neither succeeds exactly on the invariants nor
returns InvalidType on every violation. -/
theorem c7_counterexample :
    NewChange .pv (some ⟨"v1"⟩) none .CTAdd = .error (.errorf "unknown object type") ∧
    NewChange .pod none none .CTAdd = .error (.errorf "new and old are both empty") ∧
    GoErr.errorf "new and old are both empty" ≠ .ErrInvalidType := by
  refine ⟨rfl, rfl, by decide⟩

/-- Claim C7, amended: `NewChange(new, old, ct)` succeeds exactly when the §3
invariants hold (Add: new non-zero and old zero; Update: both non-zero;
Delete: old non-zero and new zero) and the payload type is Node, Pod or
Namespace; every violation returns an error, but the `ErrInvalidType`
sentinel is returned exactly for `ct = Unknown` — other violations return
descriptive `fmt.Errorf` errors. -/
theorem c7_amended (k : ObjKind) (n o : Option (ObjTy k)) (ct : ChangeType) :
    ((∃ c, NewChange k n o ct = .ok c) ↔
      (k ≠ .pv ∧
        ((ct = .CTAdd ∧ n.isSome ∧ o = none) ∨
         (ct = .CTUpdate ∧ n.isSome ∧ o.isSome) ∨
         (ct = .CTDelete ∧ o.isSome ∧ n = none)))) ∧
    (NewChange k n o ct = .error .ErrInvalidType ↔ ct = .CTUnknown) := by
  cases k <;> cases ct <;> cases n <;> cases o <;>
    simp [NewChange]

/-- Claim C10: `NewChange` derives the `ObjectType` solely from the payload
kind and accepts only Node, Pod and Namespace payloads; for the
PersistentVolume kind it always errors and produces no Change, while a valid
PersistentVolume-tagged change is accepted by `NewPersistentVolume`. -/
theorem c10_newchange_object_types (k : ObjKind) (n o : Option (ObjTy k)) (ct : ChangeType) :
    (∀ c, NewChange k n o ct = .ok c →
      ((k = .node ∧ c.ObjectType = .OTNode) ∨
       (k = .pod ∧ c.ObjectType = .OTPod) ∨
       (k = .ns ∧ c.ObjectType = .OTNamespace))) ∧
    (k = .pv → ∀ c, NewChange k n o ct ≠ .ok c) ∧
    (∀ c : Change .pv, c.ObjectType = .OTPersistentVolume → c.Validate = none →
      ∀ u, c.UID = .ok u →
        NewPersistentVolume .pv c = .ok ⟨ChangeAny.pv c, u, .OTPersistentVolume⟩) := by
  refine ⟨?_, ?_, ?_⟩
  · intro c hc
    cases k <;> cases ct <;> cases n <;> cases o <;>
      simp_all [NewChange] <;> subst hc <;> rfl
  · rintro rfl c hc
    cases ct <;> cases n <;> cases o <;>
      simp_all [NewChange]
  · intro c hot hval u huid
    simp [NewPersistentVolume, hot, hval, huid, ChangeAny.mk]

/-- Witness for `c10_newchange_object_types`: a valid PV add is refused by
`NewChange` but accepted by `NewPersistentVolume`. -/
theorem c10_newchange_object_types_witness :
    (NewChange .pv (some ⟨"v1"⟩) none .CTAdd ≠
      .ok ⟨none, some ⟨"v1"⟩, .CTAdd, .OTPersistentVolume⟩) ∧
    NewPersistentVolume .pv ⟨none, some ⟨"v1"⟩, .CTAdd, .OTPersistentVolume⟩ =
      .ok ⟨ChangeAny.pv ⟨none, some ⟨"v1"⟩, .CTAdd, .OTPersistentVolume⟩, "v1", .OTPersistentVolume⟩ :=
  ⟨(c10_newchange_object_types .pv (some ⟨"v1"⟩) none .CTAdd).2.1 rfl _,
   (c10_newchange_object_types .pv (some ⟨"v1"⟩) none .CTAdd).2.2
     ⟨none, some ⟨"v1"⟩, .CTAdd, .OTPersistentVolume⟩ rfl rfl "v1" rfl⟩

/-- Claim C3: for every received `Batches` value and every registered sink,
a sink whose channel has room receives exactly that one value (appended to
its buffer), and a full sink receives nothing while the drop error naming it
is logged; each sink's outcome depends only on its own channel state. -/
theorem c3_router_fanout (rs : List routing.route) (b : batching.Batches) :
    ∀ (i : Nat) (r : routing.route), rs[i]? = some r →
      (r.out.buf.length < r.out.cap →
        (routing.handleOne rs b).1[i]? = some ⟨⟨r.out.cap, r.out.buf ++ [b]⟩, r.name⟩) ∧
      (¬ r.out.buf.length < r.out.cap →
        (routing.handleOne rs b).1[i]? = some r ∧
          dropMsg r.name ∈ (routing.handleOne rs b).2) := by
  induction rs with
  | nil =>
    intro i r hi
    simp at hi
  | cons r0 rest ih =>
    intro i r hi
    rcases hrec : routing.handleOne rest b with ⟨rest', logs⟩
    cases i with
    | zero =>
      simp only [List.getElem?_cons_zero, Option.some.injEq] at hi
      subst hi
      constructor
      · intro hlt
        have hpush : routing.Batches.push r0 b = .ok ⟨⟨r0.out.cap, r0.out.buf ++ [b]⟩, r0.name⟩ := by
          simp [routing.Batches.push, Chan.trySend, hlt]
        simp [routing.handleOne, hrec, hpush]
      · intro hge
        have hpush : routing.Batches.push r0 b = .error (dropMsg r0.name) := by
          simp [routing.Batches.push, Chan.trySend, hge, dropMsg]
        simp [routing.handleOne, hrec, hpush]
    | succ n =>
      simp only [List.getElem?_cons_succ] at hi
      have hrest := ih n r hi
      rw [hrec] at hrest
      constructor
      · intro hlt
        cases hpush : routing.Batches.push r0 b with
        | ok r' => simpa [routing.handleOne, hrec, hpush] using hrest.1 hlt
        | error m => simpa [routing.handleOne, hrec, hpush] using hrest.1 hlt
      · intro hge
        cases hpush : routing.Batches.push r0 b with
        | ok r' =>
          have := hrest.2 hge
          simp [routing.handleOne, hrec, hpush]
          exact this
        | error m =>
          have := hrest.2 hge
          simp [routing.handleOne, hrec, hpush]
          exact ⟨this.1, Or.inr this.2⟩

/-- Witness for `c3_router_fanout`: with one roomy sink and one full sink,
the roomy sink receives the batches, the full one is skipped and the drop
naming it is logged. -/
theorem c3_router_fanout_witness :
    (routing.handleOne [⟨⟨1, []⟩, "fast"⟩, ⟨⟨0, []⟩, "slow"⟩] []).1[0]? =
      some ⟨⟨1, [[]]⟩, "fast"⟩ ∧
    (routing.handleOne [⟨⟨1, []⟩, "fast"⟩, ⟨⟨0, []⟩, "slow"⟩] []).1[1]? =
      some ⟨⟨0, []⟩, "slow"⟩ ∧
    dropMsg "slow" ∈ (routing.handleOne [⟨⟨1, []⟩, "fast"⟩, ⟨⟨0, []⟩, "slow"⟩] []).2 :=
  ⟨(c3_router_fanout [⟨⟨1, []⟩, "fast"⟩, ⟨⟨0, []⟩, "slow"⟩] [] 0 ⟨⟨1, []⟩, "fast"⟩ rfl).1
      (by decide),
   ((c3_router_fanout [⟨⟨1, []⟩, "fast"⟩, ⟨⟨0, []⟩, "slow"⟩] [] 1 ⟨⟨0, []⟩, "slow"⟩ rfl).2
      (by decide)).1,
   ((c3_router_fanout [⟨⟨1, []⟩, "fast"⟩, ⟨⟨0, []⟩, "slow"⟩] [] 1 ⟨⟨0, []⟩, "slow"⟩ rfl).2
      (by decide)).2⟩

/-- `Change.UID` returns the new object's UID for adds and updates and the
old object's UID for deletes. -/
theorem change_uid_spec {k : ObjKind} (c : Change k) (u : String) (hu : c.UID = .ok u) :
    ((c.ChangeType = .CTAdd ∨ c.ChangeType = .CTUpdate) →
      ∃ obNew, c.New = some obNew ∧ u = objUID k obNew) ∧
    (c.ChangeType = .CTDelete → ∃ oo, c.Old = some oo ∧ u = objUID k oo) := by
  constructor
  · rintro (h | h) <;>
    · simp only [Change.UID, h] at hu
      cases hnew : c.New with
      | some obNew =>
        rw [hnew] at hu
        exact ⟨obNew, rfl, by injection hu with h'; exact h'.symm⟩
      | none => rw [hnew] at hu; cases hu
  · intro h
    simp only [Change.UID, h] at hu
    cases hold : c.Old with
    | some oo =>
      rw [hold] at hu
      exact ⟨oo, rfl, by injection hu with h'; exact h'.symm⟩
    | none => rw [hold] at hu; cases hu

/-- Claim C9: for every valid Change wrapped into an Entry (through
`NewInformer` or `NewPersistentVolume` and `NewEntry`), `Entry.UID()` equals
`New.GetUID()` when the ChangeType is Add or Update and `Old.GetUID()` when
it is Delete. -/
theorem c9_entry_uid (k : ObjKind) (c : Change k) :
    (∀ i e, NewInformer k c = .ok i → NewEntry (some (.informer i)) = .ok e →
      ((c.ChangeType = .CTAdd ∨ c.ChangeType = .CTUpdate) →
        ∃ obNew, c.New = some obNew ∧ e.UID = objUID k obNew) ∧
      (c.ChangeType = .CTDelete →
        ∃ oo, c.Old = some oo ∧ e.UID = objUID k oo)) ∧
    (∀ p e, NewPersistentVolume k c = .ok p → NewEntry (some (.pv p)) = .ok e →
      ((c.ChangeType = .CTAdd ∨ c.ChangeType = .CTUpdate) →
        ∃ obNew, c.New = some obNew ∧ e.UID = objUID k obNew) ∧
      (c.ChangeType = .CTDelete →
        ∃ oo, c.Old = some oo ∧ e.UID = objUID k oo)) := by
  constructor
  · intro i e hinf hent
    have he : e.UID = i.uid := by
      simp only [NewEntry] at hent
      injection hent with h
      subst h
      rfl
    have hu : c.UID = .ok i.uid := by
      cases hot : c.ObjectType <;> rw [NewInformer, hot] at hinf <;> try cases hinf
      all_goals
        cases hval : c.Validate <;> rw [hval] at hinf <;> try cases hinf
      all_goals
        cases huid : c.UID with
        | error err => rw [huid] at hinf; cases hinf
        | ok u => rw [huid] at hinf; injection hinf with h; subst h; rfl
    rw [he]
    exact change_uid_spec c i.uid hu
  · intro p e hpv hent
    have he : e.UID = p.uid := by
      simp only [NewEntry] at hent
      injection hent with h
      subst h
      rfl
    have hu : c.UID = .ok p.uid := by
      cases hot : c.ObjectType <;> rw [NewPersistentVolume, hot] at hpv <;> try cases hpv
      all_goals
        cases hval : c.Validate <;> rw [hval] at hpv <;> try cases hpv
      all_goals
        cases huid : c.UID with
        | error err => rw [huid] at hpv; cases hpv
        | ok u => rw [huid] at hpv; injection hpv with h; subst h; rfl
    rw [he]
    exact change_uid_spec c p.uid hu

/-- Witness for `c9_entry_uid`: a concrete pod Add change wrapped via
`NewInformer` and `NewEntry` has the new pod's UID. -/
theorem c9_entry_uid_witness :
    ∃ obNew, (⟨none, some ⟨"p1", ⟨[]⟩⟩, .CTAdd, .OTPod⟩ : Change .pod).New = some obNew ∧
      (⟨some (.informer ⟨ChangeAny.pod ⟨none, some ⟨"p1", ⟨[]⟩⟩, .CTAdd, .OTPod⟩, "p1", .OTPod⟩),
        .ETInformer⟩ : Entry).UID = objUID .pod obNew :=
  ((c9_entry_uid .pod ⟨none, some ⟨"p1", ⟨[]⟩⟩, .CTAdd, .OTPod⟩).1
      ⟨ChangeAny.pod ⟨none, some ⟨"p1", ⟨[]⟩⟩, .CTAdd, .OTPod⟩, "p1", .OTPod⟩
      ⟨some (.informer ⟨ChangeAny.pod ⟨none, some ⟨"p1", ⟨[]⟩⟩, .CTAdd, .OTPod⟩, "p1", .OTPod⟩),
        .ETInformer⟩ rfl rfl).1 (Or.inl rfl)

theorem alistGet_set_self {κ ν : Type} [DecidableEq κ] (l : List (κ × ν)) (k : κ) (v : ν) :
    alistGet (alistSet l k v) k = some v := by
  induction l with
  | nil => simp [alistSet, alistGet]
  | cons kv rest ih =>
    obtain ⟨k1, v1⟩ := kv
    by_cases h : k = k1 <;> simp [alistSet, alistGet, h, ih]

theorem alistGet_set_ne {κ ν : Type} [DecidableEq κ] (l : List (κ × ν)) (k k' : κ) (v : ν)
    (h : k' ≠ k) : alistGet (alistSet l k v) k' = alistGet l k' := by
  induction l with
  | nil => simp [alistSet, alistGet, h]
  | cons kv rest ih =>
    obtain ⟨k1, v1⟩ := kv
    by_cases h1 : k = k1
    · subst h1
      simp [alistSet, alistGet, h]
    · by_cases h2 : k' = k1 <;> simp [alistSet, alistGet, h1, h2, ih]

theorem count_set_self {κ ν : Type} [DecidableEq κ] (l : List (κ × ν)) (k : κ) (v : ν) :
    ((alistSet l k v).filter (fun kv => decide (kv.1 = k))).length =
      if (l.filter (fun kv => decide (kv.1 = k))).length = 0 then 1
      else (l.filter (fun kv => decide (kv.1 = k))).length := by
  induction l with
  | nil => simp [alistSet]
  | cons kv rest ih =>
    obtain ⟨k1, v1⟩ := kv
    by_cases h : k = k1
    · subst h
      simp [alistSet, List.filter_cons]
    · have hskip : List.filter (fun kv => decide (kv.1 = k)) ((k1, v1) :: rest) =
          List.filter (fun kv => decide (kv.1 = k)) rest := by
        simp [List.filter_cons, Ne.symm h]
      simp only [alistSet, if_neg h, hskip]
      rw [List.filter_cons]
      simp only [Ne.symm h]
      simpa using ih

theorem count_set_ne {κ ν : Type} [DecidableEq κ] (l : List (κ × ν)) (k k' : κ) (v : ν)
    (h : k' ≠ k) :
    ((alistSet l k v).filter (fun kv => decide (kv.1 = k'))).length =
      (l.filter (fun kv => decide (kv.1 = k'))).length := by
  induction l with
  | nil => simp [alistSet, Ne.symm h]
  | cons kv rest ih =>
    obtain ⟨k1, v1⟩ := kv
    by_cases h1 : k = k1
    · subst h1
      simp [alistSet, List.filter_cons, Ne.symm h]
    · simp only [alistSet, if_neg h1]
      rw [List.filter_cons, List.filter_cons]
      by_cases h2 : k1 = k' <;> simp [h2, ih]

theorem handleWindow_snoc (es : List Entry) (e : Entry) (init : batching.Batches) :
    batching.handleWindow (es ++ [e]) init =
      (match batching.handleData (batching.handleWindow es init) e with
       | .ok b => b
       | .error _ => batching.handleWindow es init) := by
  simp [batching.handleWindow, List.foldl_append]

/-- The window invariant of `handleData`: for a non-empty UID `u`, the batch
for `T` holds under `u` exactly the last matching handled entry, stored
exactly once. -/
theorem handleWindow_spec (T : EntryType) (u : String) (hu : u ≠ "") (es : List Entry) :
    lookupB (batching.handleWindow es []) T u = (es.filter (entryMatches T u)).getLast? ∧
    countB (batching.handleWindow es []) T u =
      (if es.filter (entryMatches T u) = [] then 0 else 1) := by
  induction es using List.reverseRecOn with
  | nil => simp [batching.handleWindow, lookupB, countB, alistGet]
  | append_singleton es e ih =>
    rw [handleWindow_snoc]
    by_cases huid : e.UID = ""
    · have hm : entryMatches T u e = false := by
        simp [entryMatches, huid, Ne.symm hu]
      have hstep :
          (match batching.handleData (batching.handleWindow es []) e with
           | .ok b => b
           | .error _ => batching.handleWindow es []) = batching.handleWindow es [] := by
        simp [batching.handleData, huid]
      rw [hstep]
      simpa [List.filter_append, hm] using ih
    · have hstep :
          (match batching.handleData (batching.handleWindow es []) e with
           | .ok b => b
           | .error _ => batching.handleWindow es []) =
            alistSet (batching.handleWindow es []) e.type
              (alistSet (match alistGet (batching.handleWindow es []) e.type with
                | some b => b
                | none => ([] : batching.Batch)) e.UID e) := by
        simp [batching.handleData, huid]
      rw [hstep]
      set cur := batching.handleWindow es [] with hcur
      set batch := (match alistGet cur e.type with
        | some b => b
        | none => ([] : batching.Batch)) with hbatch
      have hbatchD : batch = (alistGet cur e.type).getD [] := by
        cases halist : alistGet cur e.type <;> simp [hbatch, halist]
      by_cases ht : e.type = T
      · subst ht
        have hbc : (batch.filter (fun kv => decide (kv.1 = u))).length = countB cur e.type u := by
          rw [hbatchD, countB]
        have hbl : alistGet batch u = lookupB cur e.type u := by
          rw [hbatchD, lookupB]
          cases halist : alistGet cur e.type with
          | some b => simp
          | none => simp [alistGet]
        by_cases hU : e.UID = u
        · subst hU
          have hm : entryMatches e.type e.UID e = true := by
            simp [entryMatches]
          constructor
          · show lookupB (alistSet cur e.type (alistSet batch e.UID e)) e.type e.UID = _
            rw [lookupB, alistGet_set_self, Option.some_bind, alistGet_set_self]
            simp [List.filter_append, hm, List.getLast?_concat]
          · show countB (alistSet cur e.type (alistSet batch e.UID e)) e.type e.UID = _
            rw [countB, alistGet_set_self, Option.getD_some, count_set_self, hbc, ih.2]
            by_cases hnil : es.filter (entryMatches e.type e.UID) = [] <;>
              simp [hnil, List.filter_append, hm]
        · have hm : entryMatches e.type u e = false := by
            simp [entryMatches, hU]
          constructor
          · show lookupB (alistSet cur e.type (alistSet batch e.UID e)) e.type u = _
            rw [lookupB, alistGet_set_self, Option.some_bind,
              alistGet_set_ne _ _ _ _ (fun h => hU h.symm), hbl, ih.1]
            simp [List.filter_append, hm]
          · show countB (alistSet cur e.type (alistSet batch e.UID e)) e.type u = _
            rw [countB, alistGet_set_self, Option.getD_some,
              count_set_ne _ _ _ _ (fun h => hU h.symm), hbc, ih.2]
            simp [List.filter_append, hm]
      · have hm : entryMatches T u e = false := by
          simp [entryMatches, ht]
        constructor
        · show lookupB (alistSet cur e.type (alistSet batch e.UID e)) T u = _
          rw [lookupB, alistGet_set_ne _ _ _ _ (fun h => ht h.symm), ← lookupB, ih.1]
          simp [List.filter_append, hm]
        · show countB (alistSet cur e.type (alistSet batch e.UID e)) T u = _
          rw [countB, alistGet_set_ne _ _ _ _ (fun h => ht h.symm), ← countB, ih.2]
          simp [List.filter_append, hm]

/-- Claim C1: over one batching window, the batch stored under an entry type
`T` holds, for each non-empty UID `u` occurring among the handled entries of
type `T`, exactly one entry, and that entry is the last handled entry with
that `(T, u)` — later entries overwrite earlier ones. -/
theorem c1_batch_dedup (es : List Entry) (T : EntryType) (u : String) (elast : Entry)
    (hu : u ≠ "") (hlast : (es.filter (entryMatches T u)).getLast? = some elast) :
    ∃ b : batching.Batch, alistGet (batching.handleWindow es []) T = some b ∧
      alistGet b u = some elast ∧
      (b.filter (fun kv => decide (kv.1 = u))).length = 1 := by
  obtain ⟨hlook, hcount⟩ := handleWindow_spec T u hu es
  rw [hlast] at hlook
  have hne : es.filter (entryMatches T u) ≠ [] := by
    intro hnil
    rw [hnil] at hlast
    cases hlast
  rw [if_neg hne] at hcount
  cases hb : alistGet (batching.handleWindow es []) T with
  | none => rw [lookupB, hb] at hlook; cases hlook
  | some b =>
    refine ⟨b, rfl, ?_, ?_⟩
    · rw [lookupB, hb] at hlook
      simpa using hlook
    · rw [countB, hb] at hcount
      exact hcount

/-- Witness for `c1_batch_dedup`: two PV entries with the same UID within one
window leave exactly the later entry in the batch. -/
theorem c1_batch_dedup_witness :
    ∃ b : batching.Batch,
      alistGet
        (batching.handleWindow
          [⟨some (.pv ⟨ChangeAny.pv ⟨none, some ⟨"p1"⟩, .CTAdd, .OTPersistentVolume⟩, "p1",
              .OTPersistentVolume⟩), .ETPersistentVolume⟩,
           ⟨some (.pv ⟨ChangeAny.pv ⟨some ⟨"p1"⟩, some ⟨"p1"⟩, .CTUpdate, .OTPersistentVolume⟩, "p1",
              .OTPersistentVolume⟩), .ETPersistentVolume⟩] [])
        .ETPersistentVolume = some b ∧
      alistGet b "p1" =
        some ⟨some (.pv ⟨ChangeAny.pv ⟨some ⟨"p1"⟩, some ⟨"p1"⟩, .CTUpdate, .OTPersistentVolume⟩,
          "p1", .OTPersistentVolume⟩), .ETPersistentVolume⟩ ∧
      (b.filter (fun kv => decide (kv.1 = "p1"))).length = 1 :=
  c1_batch_dedup _ .ETPersistentVolume "p1" _ (by decide) (by decide)

/-- Claim C2: a well-formed Informer-wrapped Pod entry is forwarded by the
redaction stage with the pod scrubbed — afterwards every env var whose name
matches the credential regex has the literal value `REDACTED` and every
non-matching env var is unchanged — while every well-formed entry that is
not an Informer-wrapped Pod passes through structurally unchanged. -/
theorem c2_secrets_redaction :
    (∀ (e : Entry) (i : Informer) (c : Change .pod) (p : Pod),
      EntryWF e = true →
      e.data = some (.informer i) → i.data = .pod c → changeSlot c = some p →
      safety.entryRouter e = some (scrubbedPodEntry e i c p)) ∧
    (∀ e : Entry, EntryWF e = true →
      (∀ i c, ¬(e.data = some (.informer i) ∧ i.data = ChangeAny.pod c)) →
      safety.entryRouter e = some e) ∧
    (∀ (p : Pod) (ci ei : Nat) (cont : Container) (ev : EnvVar),
      p.Spec.Containers[ci]? = some cont →
      cont.Env[ei]? = some ev →
      ∃ cont' ev', (safety.scrubPod p).Spec.Containers[ci]? = some cont' ∧
        cont'.Env[ei]? = some ev' ∧
        ev'.Name = ev.Name ∧
        (safety.secretREMatch ev.Name = true → ev'.Value = "REDACTED") ∧
        (safety.secretREMatch ev.Name = false → ev' = ev)) := by
  refine ⟨?_, ?_, ?_⟩
  · rintro ⟨d, t⟩ i c p hwf hdata hic hslot
    simp only at hdata
    subst hdata
    cases t with
    | ETUnknown => simp [EntryWF] at hwf
    | ETPersistentVolume => simp [EntryWF] at hwf
    | ETInformer =>
      have hinf : InformerWF i = true := by simpa [EntryWF] using hwf
      rw [InformerWF, hic] at hinf
      simp only [Bool.and_eq_true, decide_eq_true_eq, Option.isNone_iff_eq_none] at hinf
      obtain ⟨htyp, _⟩ := hinf
      have hslot' : (if c.ChangeType = .CTDelete then c.Old else c.New) = some p := hslot
      simp [safety.entryRouter, safety.informerScrubber, Entry.Informer, htyp, hic, hslot',
        scrubbedPodEntry]
  · rintro ⟨d, t⟩ hwf hnot
    cases d with
    | none => cases t <;> simp [EntryWF] at hwf
    | some sd =>
      cases sd with
      | pv pdata =>
        cases t with
        | ETUnknown => simp [EntryWF] at hwf
        | ETInformer => simp [EntryWF] at hwf
        | ETPersistentVolume => simp [safety.entryRouter]
      | informer i =>
        cases t with
        | ETUnknown => simp [EntryWF] at hwf
        | ETPersistentVolume => simp [EntryWF] at hwf
        | ETInformer =>
          have hinf : InformerWF i = true := by simpa [EntryWF] using hwf
          cases hid : i.data with
          | pod c => exact absurd ⟨rfl, hid⟩ (hnot i c)
          | node c =>
            rw [InformerWF, hid] at hinf
            simp only [Bool.and_eq_true, decide_eq_true_eq] at hinf
            simp [safety.entryRouter, safety.informerScrubber, Entry.Informer, hinf.1]
          | ns c =>
            rw [InformerWF, hid] at hinf
            simp only [Bool.and_eq_true, decide_eq_true_eq] at hinf
            simp [safety.entryRouter, safety.informerScrubber, Entry.Informer, hinf.1]
          | pv c => rw [InformerWF, hid] at hinf; cases hinf
  · intro p ci ei cont ev hci hei
    refine ⟨safety.scrubContainer cont, safety.scrubEnvVar ev, ?_, ?_, ?_, ?_, ?_⟩
    · simp [safety.scrubPod, List.getElem?_map, hci]
    · simp [safety.scrubContainer, List.getElem?_map, hei]
    · by_cases hm : safety.secretREMatch ev.Name <;> simp [safety.scrubEnvVar, hm]
    · intro hm
      simp [safety.scrubEnvVar, hm]
    · intro hm
      simp [safety.scrubEnvVar, hm]

/-- Witness for `c2_secrets_redaction`: the concrete pod entry of scenario S2
is forwarded scrubbed (DB_PASSWORD redacted, GREETING untouched), and a PV
entry passes through unchanged. -/
theorem c2_secrets_redaction_witness :
    safety.entryRouter
        ⟨some (.informer ⟨.pod ⟨none, some ⟨"p2",
          ⟨[⟨[⟨"DB_PASSWORD", "hunter2"⟩, ⟨"GREETING", "hi"⟩]⟩]⟩⟩, .CTAdd, .OTPod⟩, "p2",
          .OTPod⟩), .ETInformer⟩ =
      some (scrubbedPodEntry
        ⟨some (.informer ⟨.pod ⟨none, some ⟨"p2",
          ⟨[⟨[⟨"DB_PASSWORD", "hunter2"⟩, ⟨"GREETING", "hi"⟩]⟩]⟩⟩, .CTAdd, .OTPod⟩, "p2",
          .OTPod⟩), .ETInformer⟩
        ⟨.pod ⟨none, some ⟨"p2", ⟨[⟨[⟨"DB_PASSWORD", "hunter2"⟩, ⟨"GREETING", "hi"⟩]⟩]⟩⟩,
          .CTAdd, .OTPod⟩, "p2", .OTPod⟩
        ⟨none, some ⟨"p2", ⟨[⟨[⟨"DB_PASSWORD", "hunter2"⟩, ⟨"GREETING", "hi"⟩]⟩]⟩⟩, .CTAdd,
          .OTPod⟩
        ⟨"p2", ⟨[⟨[⟨"DB_PASSWORD", "hunter2"⟩, ⟨"GREETING", "hi"⟩]⟩]⟩⟩) ∧
    safety.entryRouter
        ⟨some (.pv ⟨.pv ⟨none, some ⟨"v1"⟩, .CTAdd, .OTPersistentVolume⟩, "v1",
          .OTPersistentVolume⟩), .ETPersistentVolume⟩ =
      some ⟨some (.pv ⟨.pv ⟨none, some ⟨"v1"⟩, .CTAdd, .OTPersistentVolume⟩, "v1",
          .OTPersistentVolume⟩), .ETPersistentVolume⟩ ∧
    ∃ cont' ev',
      (safety.scrubPod ⟨"p2", ⟨[⟨[⟨"DB_PASSWORD", "hunter2"⟩, ⟨"GREETING", "hi"⟩]⟩]⟩⟩).Spec.Containers[0]? =
        some cont' ∧
      cont'.Env[0]? = some ev' ∧
      ev'.Name = "DB_PASSWORD" ∧
      (safety.secretREMatch "DB_PASSWORD" = true → ev'.Value = "REDACTED") ∧
      (safety.secretREMatch "DB_PASSWORD" = false →
        ev' = ⟨"DB_PASSWORD", "hunter2"⟩) :=
  ⟨c2_secrets_redaction.1
      ⟨some (.informer ⟨.pod ⟨none, some ⟨"p2",
        ⟨[⟨[⟨"DB_PASSWORD", "hunter2"⟩, ⟨"GREETING", "hi"⟩]⟩]⟩⟩, .CTAdd, .OTPod⟩, "p2",
        .OTPod⟩), .ETInformer⟩
      ⟨.pod ⟨none, some ⟨"p2", ⟨[⟨[⟨"DB_PASSWORD", "hunter2"⟩, ⟨"GREETING", "hi"⟩]⟩]⟩⟩,
        .CTAdd, .OTPod⟩, "p2", .OTPod⟩
      ⟨none, some ⟨"p2", ⟨[⟨[⟨"DB_PASSWORD", "hunter2"⟩, ⟨"GREETING", "hi"⟩]⟩]⟩⟩, .CTAdd,
        .OTPod⟩
      ⟨"p2", ⟨[⟨[⟨"DB_PASSWORD", "hunter2"⟩, ⟨"GREETING", "hi"⟩]⟩]⟩⟩
      (by decide) rfl rfl rfl,
   c2_secrets_redaction.2.1
      ⟨some (.pv ⟨.pv ⟨none, some ⟨"v1"⟩, .CTAdd, .OTPersistentVolume⟩, "v1",
        .OTPersistentVolume⟩), .ETPersistentVolume⟩
      (by decide)
      (by rintro i c ⟨hd, hic⟩; simp at hd),
   c2_secrets_redaction.2.2
      ⟨"p2", ⟨[⟨[⟨"DB_PASSWORD", "hunter2"⟩, ⟨"GREETING", "hi"⟩]⟩]⟩⟩ 0 0
      ⟨[⟨"DB_PASSWORD", "hunter2"⟩, ⟨"GREETING", "hi"⟩]⟩ ⟨"DB_PASSWORD", "hunter2"⟩
      rfl rfl⟩

end Tattler
